import Mathlib

/-
  Verification of the boring-proxy MITM forward proxy against its
  natural-language specification.  The Rust source is shallowly embedded:
  header maps become lists of name/value pairs, the moka certificate cache
  and the session HashMap become association lists threaded through the
  operations as explicit state, random values (serial numbers, profile
  picks, fresh key handles) become explicit parameters, and fallible
  library calls are modelled on their success path or as Except values
  where the error matters to a claim.
-/

namespace BoringProxy

/-! ## ASCII strings

The Rust code lowercases header names and values with `to_lowercase` /
compares with `eq_ignore_ascii_case`; header names are ASCII, so both are
modelled by per-character ASCII lowering. -/

/-- Lowercase a single ASCII character; other characters are unchanged. -/
def asciiLower (c : Char) : Char :=
  if 65 ≤ c.toNat ∧ c.toNat ≤ 90 then Char.ofNat (c.toNat + 32) else c

/-- ASCII-lowercase a string (models Rust `to_lowercase` on ASCII data,
and the case-normalisation hyper applies to header names). -/
def lowerStr (s : String) : String :=
  String.mk (s.data.map asciiLower)

/-- Does `s` start with `p`?  (Rust `str::starts_with`.) -/
def strStarts (s p : String) : Bool :=
  p.data.isPrefixOf s.data

/-- Substring test on character lists (Rust `str::contains`). -/
def containsSub : List Char → List Char → Bool
  | s, pat =>
    pat.isPrefixOf s ||
      (match s with
       | [] => false
       | _ :: t => containsSub t pat)

/-- Does `s` contain `p` as a substring?  (Rust `str::contains`.) -/
def strContains (s p : String) : Bool :=
  containsSub s.data p.data

/-- Rust `str::eq_ignore_ascii_case`. -/
def eqIgnoreAsciiCase (a b : String) : Bool :=
  lowerStr a == lowerStr b

/-! ## Headers -/

/-- One HTTP header (name, value).  the hyper HeaderMap type is modelled as a
`List Header` in insertion order; name comparisons are case-insensitive,
matching the hyper HeaderName semantics. -/
structure Header where
  name : String
  value : String
deriving DecidableEq, Repr

/-- `HeaderMap::get`: first value stored under a (case-insensitive) name.
From hyper semantics as used in src/proxy.rs. -/
def headerGet (hs : List Header) (n : String) : Option String :=
  (hs.find? (fun h => lowerStr h.name == lowerStr n)).map Header.value

/-- Header-forwarding predicate of the plain request paths
(src/proxy.rs lines 188-200 and 294-306): a header is copied to the
outbound rquest request unless it is one of User-Agent, Accept,
Accept-Encoding, Accept-Language, Host (HeaderName comparison is
case-insensitive) or its lowercased name starts with "sec-". -/
def forwardsHeader (k : String) : Bool :=
  let key := lowerStr k
  !(key == "user-agent") && !(key == "accept") && !(key == "accept-encoding") &&
  !(key == "accept-language") && !(key == "host") && !(strStarts key "sec-")

/-- The outbound header list produced by the forwarding loop of
src/proxy.rs (both the intercepted-HTTPS and the plain-HTTP copy). -/
def filterForwardHeaders (hs : List Header) : List Header :=
  hs.filter (fun h => forwardsHeader h.name)

/-- Header-forwarding predicate of the WebSocket bridge
(src/websocket_handler.rs lines 29-43): a header is forwarded when it is
not one of the five profile-managed headers, or (regardless) when it is
one of the three Sec-WebSocket-* handshake headers. -/
def wsForwardsHeader (k : String) : Bool :=
  let key := lowerStr k
  (!(key == "user-agent") && !(key == "accept") && !(key == "accept-encoding") &&
   !(key == "accept-language") && !(key == "host"))
  || key == "sec-websocket-key" || key == "sec-websocket-version" ||
  key == "sec-websocket-protocol"

/-- The header list forwarded on the upstream WebSocket handshake
(src/websocket_handler.rs lines 29-43). -/
def wsFilterHeaders (hs : List Header) : List Header :=
  hs.filter (fun h => wsForwardsHeader h.name)

/-- The exclusion set exactly as the specification words it (spec section
4.D step 5): the five named headers plus any header whose lowercased name
begins with "sec-".  Spec-side definition, for comparison with
`forwardsHeader` which is translated from the code. -/
def specBannedHeader (k : String) : Prop :=
  lowerStr k = "user-agent" ∨ lowerStr k = "accept" ∨
  lowerStr k = "accept-encoding" ∨ lowerStr k = "accept-language" ∨
  lowerStr k = "host" ∨ strStarts (lowerStr k) "sec-" = true

instance (k : String) : Decidable (specBannedHeader k) := by
  unfold specBannedHeader; infer_instance

/-! ## Synthesised responses and error marshalling -/

/-- A response the proxy itself synthesises (status, headers, body).
The empty body of `types.rs empty()` is modelled as the empty string. -/
structure SynthResponse where
  status : Nat
  headers : List Header
  body : String
deriving DecidableEq, Repr

/-- `create_websocket_response` (src/websocket_handler.rs lines 152-158):
status 101 with Connection: upgrade and Upgrade: websocket and an empty
body. -/
def createWebsocketResponse : SynthResponse :=
  { status := 101
  , headers := [⟨"connection", "upgrade"⟩, ⟨"upgrade", "websocket"⟩]
  , body := "" }

/-- Outcome of forwarding one request upstream: either the converted
upstream response, or the rendered error string of the failed send. -/
inductive UpstreamOutcome where
  | ok (resp : SynthResponse)
  | err (msg : String)
deriving DecidableEq, Repr

/-- Error marshalling of the intercepted-HTTPS inner service
(src/proxy.rs lines 226-235): on error the service synthesises a status
500 response with body "Error: " ++ e and still returns `Ok` to hyper
(the `Infallible` error type: the connection keeps being served), which
is why this function is total. -/
def innerService (r : UpstreamOutcome) : SynthResponse :=
  match r with
  | .ok resp => resp
  | .err e => { status := 500, headers := [], body := "Error: " ++ e }

/-- Error marshalling of the plain-HTTP path in the accept loop
(src/main.rs lines 54-63): identical 500 synthesis, again with
`Infallible` as the service error type, so the connection and the accept
loop survive the failure. -/
def mainService (r : UpstreamOutcome) : SynthResponse :=
  match r with
  | .ok resp => resp
  | .err e => { status := 500, headers := [], body := "Error: " ++ e }

/-! ## WebSocket upgrade detection and inner dispatch -/

/-- The four-part WebSocket detection of src/proxy.rs lines 169-178:
Upgrade equals "websocket" ignoring ASCII case, Connection (lowercased)
contains "upgrade", and both Sec-WebSocket-Key and Sec-WebSocket-Version
are present. -/
def isWebsocketRequest (hs : List Header) : Bool :=
  ((headerGet hs "upgrade").map (fun s => eqIgnoreAsciiCase s "websocket")).getD false
  && ((headerGet hs "connection").map (fun s => strContains (lowerStr s) "upgrade")).getD false
  && (headerGet hs "sec-websocket-key").isSome
  && (headerGet hs "sec-websocket-version").isSome

/-- What the inner service does with one decrypted request, as far as the
claims are concerned.  `websocketAccept` carries the 101 response written
to the client and the final URL handed to the background bridge task;
`failed` is the error branch later marshalled by `innerService`. -/
inductive InnerOutcome where
  | websocketAccept (resp : SynthResponse) (bridgeUrl : String)
  | failed (msg : String)
  | forwardUpstream (outboundHeaders : List Header)
deriving DecidableEq, Repr

/-- Dispatch of one decrypted inner request (src/proxy.rs lines 168-200
together with handle_websocket_request, lines 63-101).  `probe` is the
result of the pre-upgrade redirect GET: the final URL, or the error it
raised.  On a detected upgrade with a successful probe the code returns
`create_websocket_response` and spawns the bridge on the final URL; a
failed probe propagates into the error branch; otherwise the request is
forwarded with the filtered headers. -/
def dispatchInner (hs : List Header) (probe : Except String String) : InnerOutcome :=
  if isWebsocketRequest hs then
    match probe with
    | .ok finalUrl => .websocketAccept createWebsocketResponse finalUrl
    | .error e => .failed e
  else
    .forwardUpstream (filterForwardHeaders hs)

/-- The upgrade conditions exactly as the specification words them (spec
section 4.D step 2).  Spec-side definition, for comparison with
`isWebsocketRequest` which is translated from the code. -/
def specWebsocketUpgrade (hs : List Header) : Prop :=
  (∃ v, headerGet hs "Upgrade" = some v ∧ eqIgnoreAsciiCase v "websocket" = true) ∧
  (∃ v, headerGet hs "Connection" = some v ∧ strContains (lowerStr v) "upgrade" = true) ∧
  (headerGet hs "Sec-WebSocket-Key").isSome = true ∧
  (headerGet hs "Sec-WebSocket-Version").isSome = true

/-! ## Certificates (src/cert_manager.rs)

X.509 material is embedded structurally: a certificate records the fields
the builder sets (subject, issuer, serial, validity, extension list in
append order, signing key and digest).  Key pairs are identified by
abstract handles (`Nat`); a signature made with key `k` verifies under a
certificate whose public key is `k`. -/

/-- An X.509 name as built by the two X509NameBuilder uses (Org entry
then CN entry). -/
structure X509Name where
  org : String
  cn : String
deriving DecidableEq, Repr

/-- Key-usage bits set by the two KeyUsage builders in the source. -/
inductive KUFlag where
  | digitalSignature
  | nonRepudiation
  | keyEncipherment
  | keyCertSign
  | crlSign
deriving DecidableEq, Repr

/-- Extended-key-usage purposes set by the leaf builder. -/
inductive EKUFlag where
  | serverAuth
  | clientAuth
deriving DecidableEq, Repr

/-- Signature digest; the source signs exclusively with SHA-256. -/
inductive Digest where
  | sha256
deriving DecidableEq, Repr

/-- An X.509v3 extension as appended by the builders in
src/cert_manager.rs. The AuthorityKeyIdentifier carries the two
`Option Bool` settings of the boring2 builder (`keyid`/`issuer`, with
`some true` meaning the "always" form). -/
inductive Ext where
  | basicConstraints (critical ca : Bool)
  | keyUsage (critical : Bool) (flags : List KUFlag)
  | subjectKeyIdentifier
  | authorityKeyIdentifier (keyid issuer : Option Bool)
  | subjectAltName (dns : List String)
  | extendedKeyUsage (flags : List EKUFlag)
deriving DecidableEq, Repr

/-- A built certificate: exactly the fields the X509 builder sets. -/
structure Cert where
  version : Nat
  serial : Nat
  subject : X509Name
  issuer : X509Name
  notBeforeDaysFromNow : Nat
  notAfterDaysFromNow : Nat
  pubkey : Nat
  extensions : List Ext
  sigKey : Nat
  sigDigest : Digest
deriving DecidableEq, Repr

/-- A certificate verifies under the public key of `issuerCert` when it
was signed with that key. -/
def verifiesUnder (c issuerCert : Cert) : Bool :=
  c.sigKey == issuerCert.pubkey

/-- Fields materialised in an AuthorityKeyIdentifier extension. -/
inductive AkiField where
  | keyId
  | issuerSerial
deriving DecidableEq, Repr

/-- Contents of an AuthorityKeyIdentifier per the OpenSSL X509V3 config
semantics that the boring2 builder delegates to: a `keyid` setting copies
the SubjectKeyIdentifier of the issuer when one is available; a non-"always"
`issuer` setting adds the issuer-and-serial form only when no key id
could be obtained. -/
def akiFields (keyid issuer : Option Bool) (issuerHasSKI : Bool) : List AkiField :=
  (if keyid.isSome && issuerHasSKI then [AkiField.keyId] else []) ++
  (if issuer == some true || (issuer.isSome && !(keyid.isSome && issuerHasSKI))
   then [AkiField.issuerSerial] else [])

/-- Does a certificate carry a SubjectKeyIdentifier extension? -/
def certHasSKI (c : Cert) : Bool :=
  c.extensions.contains Ext.subjectKeyIdentifier

/-- The subject (= issuer) name of the root CA
(src/cert_manager.rs lines 78-81). -/
def rootName : X509Name :=
  { org := "Boring Proxy", cn := "<BORING-PROXY CA>" }

/-- `BigNum::rand(159, MsbOption::MAYBE_ZERO, false)`: a uniformly random
non-negative integer of at most 159 bits, i.e. a value in [0, 2^159),
drawn from the given entropy. -/
def randSerial (entropy : Nat) : Nat :=
  entropy % 2 ^ 159

/-- `CertManager::create_root_ca` (src/cert_manager.rs lines 70-134):
self-signed CA certificate over a fresh RSA-4096 key. -/
def createRootCa (rootKeyId serialEntropy : Nat) : Cert :=
  { version := 2
  , serial := randSerial serialEntropy
  , subject := rootName
  , issuer := rootName
  , notBeforeDaysFromNow := 0
  , notAfterDaysFromNow := 90
  , pubkey := rootKeyId
  , extensions :=
      [ Ext.basicConstraints true true
      , Ext.keyUsage true [KUFlag.keyCertSign, KUFlag.crlSign]
      , Ext.subjectKeyIdentifier ]
  , sigKey := rootKeyId
  , sigDigest := Digest.sha256 }

/-- The leaf-building part of `CertManager::get_or_create_cert`
(src/cert_manager.rs lines 149-219): fresh RSA-4096 key `leafKeyId`,
subject CN = domain with Org "Boring Proxy", issuer = the root subject,
159-bit random serial, 90-day validity, the six extensions in source
order, signed with the root key using SHA-256. -/
def buildLeaf (rootSubject : X509Name) (rootKeyId leafKeyId serialEntropy : Nat)
    (domain : String) : Cert :=
  { version := 2
  , serial := randSerial serialEntropy
  , subject := { org := "Boring Proxy", cn := domain }
  , issuer := rootSubject
  , notBeforeDaysFromNow := 0
  , notAfterDaysFromNow := 90
  , pubkey := leafKeyId
  , extensions :=
      [ Ext.basicConstraints false false
      , Ext.keyUsage true [KUFlag.nonRepudiation, KUFlag.digitalSignature,
          KUFlag.keyEncipherment]
      , Ext.subjectKeyIdentifier
      , Ext.authorityKeyIdentifier (some false) (some false)
      , Ext.subjectAltName [domain, "*." ++ domain]
      , Ext.extendedKeyUsage [EKUFlag.serverAuth, EKUFlag.clientAuth] ]
  , sigKey := rootKeyId
  , sigDigest := Digest.sha256 }

/-- One cached value of the moka cert cache: the chain (leaf then root)
and the private-key handle of the leaf. -/
structure CertEntry where
  chain : List Cert
  key : Nat
deriving DecidableEq, Repr

/-- State of `CertManager`: the root material plus the moka cache,
modelled as an association list whose most recent insert shadows older
entries (moka `insert` replaces the visible value). -/
structure CertManagerState where
  rootCert : Cert
  rootKeyId : Nat
  cache : List (String × CertEntry)
deriving DecidableEq, Repr

/-- Cache lookup (moka `get`). -/
def cacheLookup (c : List (String × CertEntry)) (d : String) : Option CertEntry :=
  (c.find? (fun p => p.1 == d)).map Prod.snd

/-- The fresh randomness one cache-miss mint consumes: the generated RSA
key handle and the serial entropy. -/
structure MintFreshInput where
  leafKeyId : Nat
  serialEntropy : Nat
deriving DecidableEq, Repr

/-- `CertManager::get_or_create_cert` (src/cert_manager.rs lines
140-233): return the cached entry when present; otherwise build the
leaf, assemble the [leaf, root] chain, insert it into the cache and
return it. -/
def getOrCreateCert (st : CertManagerState) (fresh : MintFreshInput)
    (domain : String) : CertEntry × CertManagerState :=
  match cacheLookup st.cache domain with
  | some e => (e, st)
  | none =>
      let leaf := buildLeaf st.rootCert.subject st.rootKeyId fresh.leafKeyId
        fresh.serialEntropy domain
      let entry : CertEntry := { chain := [leaf, st.rootCert], key := fresh.leafKeyId }
      (entry, { st with cache := (domain, entry) :: st.cache })

/-- `CertManager::new` on the generate-fresh-CA path
(src/cert_manager.rs lines 34-68): root material from `create_root_ca`,
empty cache. -/
def initCertManager (rootKeyId serialEntropy : Nat) : CertManagerState :=
  { rootCert := createRootCa rootKeyId serialEntropy
  , rootKeyId := rootKeyId
  , cache := [] }

/-! ## Sessions (src/session_manager.rs)

Cookie jars and rquest clients are identified structurally: a jar is a
`Nat` handle (an `Arc<Jar>` reference), and a client records the profile
it impersonates together with the jar handle it was built over, exactly
the two inputs of `SessionManager::create_client`. -/

/-- An rquest client handle as produced by `create_client(profile, jar)`
(src/session_manager.rs lines 29-46): built over an impersonation
profile and a cookie-jar reference. -/
structure ClientHandle where
  profile : Nat
  jar : Nat
deriving DecidableEq, Repr

/-- `SessionManager::create_client`. -/
def createClient (profile jar : Nat) : ClientHandle :=
  { profile := profile, jar := jar }

/-- One `Session` value (src/session_manager.rs lines 10-16). -/
structure Session where
  client : ClientHandle
  profile : Nat
  lastUsed : Nat
  cookieJar : Nat
deriving DecidableEq, Repr

/-- Lookup in the host → session HashMap, modelled as an association
list. -/
def sessLookup (m : List (String × Session)) (h : String) : Option Session :=
  (m.find? (fun p => p.1 == h)).map Prod.snd

/-- In-place update of the entry stored under `host` (the `get_mut`
branch mutates the existing entry). -/
def sessUpdate (m : List (String × Session)) (host : String) (s : Session) :
    List (String × Session) :=
  m.map (fun p => if p.1 == host then (p.1, s) else p)

/-- `SessionManager::get_or_create_session` (src/session_manager.rs
lines 48-99).  `newProfile` is the uniformly random pick of this call from
PROFILES; `now` the current instant; `freshJar` the jar reference a
brand-new session would allocate.  If an entry exists the stored client
is replaced by a fresh one built over the rotated profile and the
existing jar and `last_used` becomes `now`; otherwise a new session with
a fresh jar is inserted.  Returns the (cloned) client handle and the
updated map. -/
def getOrCreateSession (m : List (String × Session)) (host : String)
    (newProfile now freshJar : Nat) : ClientHandle × List (String × Session) :=
  match sessLookup m host with
  | some s =>
      let newClient := createClient newProfile s.cookieJar
      let s2 : Session :=
        { client := newClient, profile := newProfile, lastUsed := now
        , cookieJar := s.cookieJar }
      (newClient, sessUpdate m host s2)
  | none =>
      let client := createClient newProfile freshJar
      (client,
        (host,
          { client := client, profile := newProfile, lastUsed := now
          , cookieJar := freshJar }) :: m)

/-- `SessionManager::cleanup_sessions` (src/session_manager.rs lines
101-111): retain exactly the entries whose idle time is strictly below
1800 seconds.  `Instant::duration_since` saturates at zero, matching
truncated `Nat` subtraction. -/
def cleanupSessions (m : List (String × Session)) (now : Nat) :
    List (String × Session) :=
  m.filter (fun p => decide (now - p.2.lastUsed < 1800))

/-! ## ALPN configuration and inner-server selection (src/proxy.rs) -/

/-- The ALPN protocol list installed on every minted server config
(src/proxy.rs line 50). -/
def serverAlpnProtocols : List String :=
  ["http/1.1"]

/-- Which hyper server serves the decrypted tunnel. -/
inductive ServedBy where
  | http1 (preserveHeaderCase titleCaseHeaders withUpgrades : Bool)
  | http2
deriving DecidableEq, Repr

/-- The ALPN dispatch of src/proxy.rs lines 239-255: the HTTP/2 server
exactly when the negotiated protocol is "h2", otherwise the HTTP/1.1
server with preserve_header_case, title_case_headers and with_upgrades
all enabled. -/
def selectServer (negotiatedAlpn : Option String) : ServedBy :=
  if negotiatedAlpn == some "h2" then ServedBy.http2
  else ServedBy.http1 true true true

/-! ## Spec-side properties

These Prop-level definitions restate claims in the words of the specification; the theorems below relate them to the definitions translated from
the source. -/

/-- Claim C3 property, in the words of the spec: a successful cache-miss mint
returns a two-element [leaf, root] chain whose leaf has issuer = root
subject, CN = host, a SAN containing host and its wildcard sibling, an
extended key usage containing serverAuth and clientAuth, a critical key
usage of exactly digitalSignature, nonRepudiation and keyEncipherment, a
159-bit
non-negative random serial, validity now .. now + 90 days, and a SHA-256
signature made with the root key, hence verifying under the public key of the root
certificate. -/
def specLeafChainWellformed (st : CertManagerState) (fresh : MintFreshInput)
    (domain : String) : Prop :=
  ∃ leaf,
    (getOrCreateCert st fresh domain).1.chain = [leaf, st.rootCert] ∧
    leaf.issuer = st.rootCert.subject ∧
    leaf.subject.cn = domain ∧
    (∃ dns, Ext.subjectAltName dns ∈ leaf.extensions ∧
      domain ∈ dns ∧ ("*." ++ domain) ∈ dns) ∧
    (∃ fl, Ext.extendedKeyUsage fl ∈ leaf.extensions ∧
      EKUFlag.serverAuth ∈ fl ∧ EKUFlag.clientAuth ∈ fl) ∧
    (∃ kf, Ext.keyUsage true kf ∈ leaf.extensions ∧
      KUFlag.digitalSignature ∈ kf ∧ KUFlag.nonRepudiation ∈ kf ∧
      KUFlag.keyEncipherment ∈ kf ∧
      (∀ f ∈ kf, f = KUFlag.digitalSignature ∨ f = KUFlag.nonRepudiation ∨
        f = KUFlag.keyEncipherment)) ∧
    leaf.serial < 2 ^ 159 ∧
    leaf.notBeforeDaysFromNow = 0 ∧
    leaf.notAfterDaysFromNow = 90 ∧
    leaf.sigDigest = Digest.sha256 ∧
    verifiesUnder leaf st.rootCert = true

/-- Claim C4 property: after one mint for a host the cache visibly holds
the returned entry, and a second mint for the same host (with arbitrary
fresh randomness, hence without synthesising anything) returns exactly
that entry and leaves the state unchanged. -/
def specMintDedup (st : CertManagerState) (f1 f2 : MintFreshInput)
    (domain : String) : Prop :=
  cacheLookup (getOrCreateCert st f1 domain).2.cache domain =
      some (getOrCreateCert st f1 domain).1 ∧
  getOrCreateCert (getOrCreateCert st f1 domain).2 f2 domain =
    ((getOrCreateCert st f1 domain).1, (getOrCreateCert st f1 domain).2)

/-- Claim C5 property: acquiring a session for a host that already has
entry `s` returns a freshly built client carrying the new profile but
bound to the same cookie-jar reference, stores that client with
last_used = now and the unchanged jar, and afterwards the client stored in
every session is still bound to the jar of that session (no entry without
its live jar). -/
def specSessionRotation (m : List (String × Session)) (host : String)
    (s : Session) (p2 now freshJar : Nat) : Prop :=
  (getOrCreateSession m host p2 now freshJar).1 = createClient p2 s.cookieJar ∧
  sessLookup (getOrCreateSession m host p2 now freshJar).2 host =
    some { client := createClient p2 s.cookieJar, profile := p2
         , lastUsed := now, cookieJar := s.cookieJar } ∧
  (∀ q ∈ (getOrCreateSession m host p2 now freshJar).2,
    q.2.client.jar = q.2.cookieJar)

/-- Claim C6 property: when the pre-upgrade redirect probe succeeds, the
inner dispatch treats the request as a WebSocket upgrade (returning the
101 response and handing the bridge the final URL in a background task)
exactly when the four spec conditions hold, and that response is status
101 with Connection: upgrade, Upgrade: websocket and an empty body. -/
def specWebsocketDispatch (hs : List Header) (u : String) : Prop :=
  (dispatchInner hs (Except.ok u) =
      InnerOutcome.websocketAccept createWebsocketResponse u ↔
    specWebsocketUpgrade hs) ∧
  createWebsocketResponse =
    { status := 101
    , headers := [⟨"connection", "upgrade"⟩, ⟨"upgrade", "websocket"⟩]
    , body := "" }

/-- Claim C8 property: the leaf builder appends exactly the six
extensions in the claimed order, the AuthorityKeyIdentifier resolves to
the key-id-only form (the issuing root carries a SubjectKeyIdentifier),
and the leaf signature is made with the root key using SHA-256. -/
def specMintExtensionOrder (rootSubject : X509Name) (rk lk se : Nat)
    (domain : String) : Prop :=
  (buildLeaf rootSubject rk lk se domain).extensions =
    [ Ext.basicConstraints false false
    , Ext.keyUsage true [KUFlag.nonRepudiation, KUFlag.digitalSignature,
        KUFlag.keyEncipherment]
    , Ext.subjectKeyIdentifier
    , Ext.authorityKeyIdentifier (some false) (some false)
    , Ext.subjectAltName [domain, "*." ++ domain]
    , Ext.extendedKeyUsage [EKUFlag.serverAuth, EKUFlag.clientAuth] ] ∧
  akiFields (some false) (some false) (certHasSKI (createRootCa rk se)) =
    [AkiField.keyId] ∧
  (buildLeaf rootSubject rk lk se domain).sigKey = rk ∧
  (buildLeaf rootSubject rk lk se domain).sigDigest = Digest.sha256

/-! ## Helper lemmas -/

/-- The code filter agrees pointwise with the spec exclusion set on the
plain request paths. -/
theorem forwardsHeader_iff_not_banned (k : String) :
    forwardsHeader k = true ↔ ¬ specBannedHeader k := by
  unfold forwardsHeader specBannedHeader
  simp [Bool.and_eq_true, Bool.not_eq_true', beq_eq_false_iff_ne, not_or,
    Bool.not_eq_true]
  tauto

/-- The code filter of the WebSocket bridge drops a header exactly when
its lowercased name is one of the five profile-managed names (shared
characterisation used below; the three Sec-WebSocket-* disjuncts of the
source never fire because those names are not among the five). -/
theorem wsForwardsHeader_eq_false_iff (k : String) :
    wsForwardsHeader k = false ↔
      (lowerStr k = "user-agent" ∨ lowerStr k = "accept" ∨
       lowerStr k = "accept-encoding" ∨ lowerStr k = "accept-language" ∨
       lowerStr k = "host") := by
  unfold wsForwardsHeader
  simp only [Bool.or_eq_false_iff, Bool.and_eq_false_iff, Bool.not_eq_false',
    beq_iff_eq, beq_eq_false_iff_ne]
  constructor
  · rintro ⟨⟨⟨h5, _⟩, _⟩, _⟩
    tauto
  · intro h
    refine ⟨⟨⟨?_, ?_⟩, ?_⟩, ?_⟩ <;>
      rcases h with h | h | h | h | h <;> simp [h]

/-- Looking a header up is insensitive to the case of the queried name. -/
theorem headerGet_congr (hs : List Header) (n m : String)
    (h : lowerStr n = lowerStr m) : headerGet hs n = headerGet hs m := by
  unfold headerGet; rw [h]

/-- The code detection agrees with the spec wording. -/
theorem isWebsocketRequest_iff_spec (hs : List Header) :
    isWebsocketRequest hs = true ↔ specWebsocketUpgrade hs := by
  unfold isWebsocketRequest specWebsocketUpgrade
  rw [headerGet_congr hs "Upgrade" "upgrade" (by decide),
    headerGet_congr hs "Connection" "connection" (by decide),
    headerGet_congr hs "Sec-WebSocket-Key" "sec-websocket-key" (by decide),
    headerGet_congr hs "Sec-WebSocket-Version" "sec-websocket-version" (by decide)]
  cases hu : headerGet hs "upgrade" <;>
    cases hc : headerGet hs "connection" <;>
      simp [Bool.and_eq_true, hu, hc, and_assoc]

/-- A character list is a prefix of itself. -/
theorem isPrefixOf_self_chars (l : List Char) : l.isPrefixOf l = true := by
  induction l with
  | nil => rfl
  | cons a t ih => simp [List.isPrefixOf, ih]

/-- A list contains each of its suffixes as a sublist. -/
theorem containsSub_append_self (pre p : List Char) :
    containsSub (pre ++ p) p = true := by
  induction pre with
  | nil => unfold containsSub; simp [isPrefixOf_self_chars]
  | cons a t ih => unfold containsSub; simp [ih]

/-- A string contains each of its suffixes. -/
theorem strContains_append_self (pre e : String) :
    strContains (pre ++ e) e = true := by
  unfold strContains
  rw [String.data_append]
  exact containsSub_append_self pre.data e.data

/-! ## Claims -/

/-- Claim C1, counterexample: at the concrete upstream failure
"connection refused", neither the intercepted-HTTPS inner service nor the
plain-HTTP accept-loop wrapper writes status 502 Bad Gateway as the claim
states; both synthesise status 500. -/
theorem upstream_error_not_502 :
    ¬ (innerService (UpstreamOutcome.err "connection refused")).status = 502 ∧
    ¬ (mainService (UpstreamOutcome.err "connection refused")).status = 502 := by
  decide

/-- Claim C1 (amended): for every forwarded request whose outbound send
fails, the proxy writes back a response with status 500 whose body
contains the error string, on both the intercepted-HTTPS path and the
plain-HTTP path; both error marshalling functions are total into a
response (the hyper service error type is Infallible), so the failure
closes at most that one exchange and the connection and accept loop
continue. -/
theorem upstream_error_marshalling (e : String) :
    (innerService (UpstreamOutcome.err e)).status = 500 ∧
    strContains (innerService (UpstreamOutcome.err e)).body e = true ∧
    (mainService (UpstreamOutcome.err e)).status = 500 ∧
    strContains (mainService (UpstreamOutcome.err e)).body e = true := by
  refine ⟨rfl, ?_, rfl, ?_⟩ <;>
    exact strContains_append_self "Error: " e

/-- Claim C1, witness instantiating the amended theorem at a concrete
error string. -/
theorem upstream_error_marshalling_witness :
    (innerService (UpstreamOutcome.err "dns failure")).status = 500 ∧
    strContains (innerService (UpstreamOutcome.err "dns failure")).body "dns failure" = true ∧
    (mainService (UpstreamOutcome.err "dns failure")).status = 500 ∧
    strContains (mainService (UpstreamOutcome.err "dns failure")).body "dns failure" = true :=
  upstream_error_marshalling "dns failure"

/-- Claim C2: on both forwarding paths a header appears in the outbound
request exactly when it was inbound and is not in the exclusion set
(User-Agent, Accept, Accept-Encoding, Accept-Language, Host, or a
lowercased name starting with "sec-"); headers outside the set are
copied unchanged (same name and value). -/
theorem header_filter_spec (hs : List Header) (h : Header) :
    h ∈ filterForwardHeaders hs ↔ (h ∈ hs ∧ ¬ specBannedHeader h.name) := by
  unfold filterForwardHeaders
  rw [List.mem_filter]
  exact and_congr_right (fun _ => forwardsHeader_iff_not_banned h.name)

/-- Claim C2, witness: on the example header set of the spec, X-Custom
survives the filter. -/
theorem header_filter_spec_witness :
    (⟨"X-Custom", "W"⟩ : Header) ∈ filterForwardHeaders
        [⟨"User-Agent", "X"⟩, ⟨"Accept", "Y"⟩, ⟨"Sec-Foo", "Z"⟩, ⟨"X-Custom", "W"⟩] ↔
      ((⟨"X-Custom", "W"⟩ : Header) ∈
          [(⟨"User-Agent", "X"⟩ : Header), ⟨"Accept", "Y"⟩, ⟨"Sec-Foo", "Z"⟩, ⟨"X-Custom", "W"⟩] ∧
        ¬ specBannedHeader "X-Custom") :=
  header_filter_spec
    [⟨"User-Agent", "X"⟩, ⟨"Accept", "Y"⟩, ⟨"Sec-Foo", "Z"⟩, ⟨"X-Custom", "W"⟩]
    ⟨"X-Custom", "W"⟩

/-- Claim C7: cleanup_sessions retains exactly the entries whose idle
time is strictly below 1800 seconds (retained entries unchanged, since
whole entries are kept by membership), and removes every entry whose
idle time is at least 1800 seconds. -/
theorem cleanup_sessions_spec (m : List (String × Session)) (now : Nat)
    (e : String × Session) :
    (e ∈ cleanupSessions m now ↔ (e ∈ m ∧ now - e.2.lastUsed < 1800)) ∧
    (e ∈ m ∧ 1800 ≤ now - e.2.lastUsed → e ∉ cleanupSessions m now) := by
  unfold cleanupSessions
  constructor
  · rw [List.mem_filter]
    simp
  · rw [List.mem_filter]
    simp
    omega

/-- Claim C7, witness: an entry idle for exactly 1800 seconds is
removed, instantiating the theorem at a concrete map. -/
theorem cleanup_sessions_spec_witness :
    (("h1", ⟨⟨0, 1⟩, 0, 200, 1⟩) ∈
        cleanupSessions [("h1", ⟨⟨0, 1⟩, 0, 200, 1⟩)] 2000 ↔
      (("h1", (⟨⟨0, 1⟩, 0, 200, 1⟩ : Session)) ∈
          [("h1", (⟨⟨0, 1⟩, 0, 200, 1⟩ : Session))] ∧ 2000 - 200 < 1800)) ∧
    (("h1", (⟨⟨0, 1⟩, 0, 200, 1⟩ : Session)) ∈
        [("h1", (⟨⟨0, 1⟩, 0, 200, 1⟩ : Session))] ∧ 1800 ≤ 2000 - 200 →
      ("h1", (⟨⟨0, 1⟩, 0, 200, 1⟩ : Session)) ∉
        cleanupSessions [("h1", ⟨⟨0, 1⟩, 0, 200, 1⟩)] 2000) :=
  cleanup_sessions_spec [("h1", ⟨⟨0, 1⟩, 0, 200, 1⟩)] 2000 ("h1", ⟨⟨0, 1⟩, 0, 200, 1⟩)

/-- Claim C9, counterexample: the header Sec-Fetch-Mode has a lowercased
name starting with "sec-" and is none of the three WebSocket handshake
headers, yet the bridge filter forwards it, contradicting the claim that
every such header is omitted. -/
theorem ws_header_filter_counterexample :
    strStarts (lowerStr "Sec-Fetch-Mode") "sec-" = true ∧
    lowerStr "Sec-Fetch-Mode" ≠ "sec-websocket-key" ∧
    lowerStr "Sec-Fetch-Mode" ≠ "sec-websocket-version" ∧
    lowerStr "Sec-Fetch-Mode" ≠ "sec-websocket-protocol" ∧
    wsFilterHeaders [⟨"Sec-Fetch-Mode", "navigate"⟩] =
      [⟨"Sec-Fetch-Mode", "navigate"⟩] := by
  decide

/-- Claim C9 (amended): the upstream WebSocket handshake omits exactly
the headers User-Agent, Accept, Accept-Encoding, Accept-Language and
Host; every other original header — including every sec-prefixed header,
in particular Sec-WebSocket-Key, Sec-WebSocket-Version and
Sec-WebSocket-Protocol — is forwarded. -/
theorem ws_header_filter_amended (hs : List Header) (h : Header) :
    h ∈ wsFilterHeaders hs ↔
      (h ∈ hs ∧
        ¬ (lowerStr h.name = "user-agent" ∨ lowerStr h.name = "accept" ∨
           lowerStr h.name = "accept-encoding" ∨ lowerStr h.name = "accept-language" ∨
           lowerStr h.name = "host")) := by
  unfold wsFilterHeaders
  rw [List.mem_filter]
  refine and_congr_right (fun _ => ?_)
  rw [← wsForwardsHeader_eq_false_iff]
  cases hb : wsForwardsHeader h.name <;> simp [hb]

/-- Claim C9, witness: Sec-WebSocket-Key is forwarded while User-Agent is
dropped, instantiating the amended theorem. -/
theorem ws_header_filter_amended_witness :
    (⟨"Sec-WebSocket-Key", "k"⟩ : Header) ∈
        wsFilterHeaders [⟨"Sec-WebSocket-Key", "k"⟩, ⟨"User-Agent", "X"⟩] ↔
      ((⟨"Sec-WebSocket-Key", "k"⟩ : Header) ∈
          [(⟨"Sec-WebSocket-Key", "k"⟩ : Header), ⟨"User-Agent", "X"⟩] ∧
        ¬ (lowerStr "Sec-WebSocket-Key" = "user-agent" ∨
           lowerStr "Sec-WebSocket-Key" = "accept" ∨
           lowerStr "Sec-WebSocket-Key" = "accept-encoding" ∨
           lowerStr "Sec-WebSocket-Key" = "accept-language" ∨
           lowerStr "Sec-WebSocket-Key" = "host")) :=
  ws_header_filter_amended [⟨"Sec-WebSocket-Key", "k"⟩, ⟨"User-Agent", "X"⟩]
    ⟨"Sec-WebSocket-Key", "k"⟩

/-- Claim C10: every minted TLS server configuration offers exactly the
one ALPN protocol "http/1.1", so whenever the negotiated inner protocol
is either absent or one of the offered protocols (the ALPN contract),
the connection is never served by the HTTP/2 branch and is always served
by the HTTP/1.1 server with header-case preservation, title-case headers
and upgrade support. -/
theorem alpn_forces_http1 (neg : Option String)
    (hneg : neg = none ∨ ∃ p ∈ serverAlpnProtocols, neg = some p) :
    serverAlpnProtocols = ["http/1.1"] ∧
    selectServer neg = ServedBy.http1 true true true ∧
    selectServer neg ≠ ServedBy.http2 := by
  have hsel : selectServer neg = ServedBy.http1 true true true := by
    rcases hneg with rfl | ⟨p, hp, rfl⟩
    · rfl
    · simp only [serverAlpnProtocols, List.mem_singleton] at hp
      subst hp
      rfl
  exact ⟨rfl, hsel, by rw [hsel]; simp⟩

/-- Claim C10, witness at the only possible negotiated protocol. -/
theorem alpn_forces_http1_witness :
    serverAlpnProtocols = ["http/1.1"] ∧
    selectServer (some "http/1.1") = ServedBy.http1 true true true ∧
    selectServer (some "http/1.1") ≠ ServedBy.http2 :=
  alpn_forces_http1 (some "http/1.1")
    (Or.inr ⟨"http/1.1", by decide, rfl⟩)

/-- Updating the entry stored under a present key makes the lookup
return the new value. -/
theorem sessLookup_update_self (m : List (String × Session)) (host : String)
    (s2 : Session) (hex : (sessLookup m host).isSome = true) :
    sessLookup (sessUpdate m host s2) host = some s2 := by
  induction m with
  | nil => simp [sessLookup] at hex
  | cons p t ih =>
      by_cases hk : p.1 = host
      · have hkb : (p.1 == host) = true := beq_iff_eq.mpr hk
        simp [sessUpdate, sessLookup, List.find?, hkb]
      · have hkb : (p.1 == host) = false := beq_eq_false_iff_ne.mpr hk
        have hex2 : (sessLookup t host).isSome = true := by
          simpa [sessLookup, List.find?, hkb] using hex
        simpa [sessUpdate, sessLookup, List.find?, hkb] using ih hex2

/-- Looking up a key just inserted at the front of the certificate cache
finds the inserted entry. -/
theorem cacheLookup_cons_self (c : List (String × CertEntry)) (d : String)
    (e : CertEntry) : cacheLookup ((d, e) :: c) d = some e := by
  simp [cacheLookup, List.find?]

/-- Claim C3: a successful cache-miss mint returns a well-formed
[leaf, root] chain in the sense of the specification, provided the
root certificate of the manager was built over its root key (true
of both initialisation paths of CertManager::new). -/
theorem mint_chain_wellformed (st : CertManagerState) (fresh : MintFreshInput)
    (domain : String) (hmiss : cacheLookup st.cache domain = none)
    (hroot : st.rootCert.pubkey = st.rootKeyId) :
    specLeafChainWellformed st fresh domain := by
  unfold specLeafChainWellformed getOrCreateCert
  rw [hmiss]
  refine ⟨buildLeaf st.rootCert.subject st.rootKeyId fresh.leafKeyId
    fresh.serialEntropy domain, rfl, rfl, rfl, ?_, ?_, ?_, ?_, rfl, rfl, rfl, ?_⟩
  · exact ⟨[domain, "*." ++ domain], by simp [buildLeaf], by simp, by simp⟩
  · exact ⟨[EKUFlag.serverAuth, EKUFlag.clientAuth], by simp [buildLeaf],
      by simp, by simp⟩
  · refine ⟨[KUFlag.nonRepudiation, KUFlag.digitalSignature,
      KUFlag.keyEncipherment], by simp [buildLeaf], by simp, by simp, by simp, ?_⟩
    intro f hf
    simp at hf
    rcases hf with rfl | rfl | rfl <;> simp
  · exact Nat.mod_lt _ (pow_pos (by norm_num) 159)
  · simp [verifiesUnder, buildLeaf, hroot]

/-- Claim C3, witness: mint for "example.com" from a freshly initialised
manager. -/
theorem mint_chain_wellformed_witness :
    specLeafChainWellformed (initCertManager 0 0) ⟨1, 5⟩ "example.com" :=
  mint_chain_wellformed _ _ _ rfl rfl

/-- Claim C4: a completed mint leaves a single visible cache entry for
the host, and every subsequent mint for that host returns exactly the
cached pair without consuming fresh randomness or changing the state. -/
theorem mint_cache_dedup (st : CertManagerState) (f1 f2 : MintFreshInput)
    (domain : String) : specMintDedup st f1 f2 domain := by
  unfold specMintDedup
  cases hl : cacheLookup st.cache domain with
  | some e =>
      have h1 : getOrCreateCert st f1 domain = (e, st) := by
        unfold getOrCreateCert; rw [hl]
      have h2 : getOrCreateCert st f2 domain = (e, st) := by
        unfold getOrCreateCert; rw [hl]
      rw [h1]
      exact ⟨hl, h2⟩
  | none =>
      have h1 : getOrCreateCert st f1 domain =
          (⟨[buildLeaf st.rootCert.subject st.rootKeyId f1.leafKeyId
              f1.serialEntropy domain, st.rootCert], f1.leafKeyId⟩,
           { st with cache :=
              (domain,
                ⟨[buildLeaf st.rootCert.subject st.rootKeyId f1.leafKeyId
                    f1.serialEntropy domain, st.rootCert], f1.leafKeyId⟩) ::
                st.cache }) := by
        unfold getOrCreateCert; rw [hl]
      rw [h1]
      refine ⟨cacheLookup_cons_self _ _ _, ?_⟩
      unfold getOrCreateCert
      rw [cacheLookup_cons_self]

/-- Claim C4, witness at a concrete initial state and host. -/
theorem mint_cache_dedup_witness :
    specMintDedup (initCertManager 0 0) ⟨1, 2⟩ ⟨3, 4⟩ "example.org" :=
  mint_cache_dedup _ _ _ _

/-- Claim C5: rotating the session of an existing host replaces the
stored client with a fresh one carrying the new profile but the same
cookie-jar reference, updates last_used to now, and preserves the
invariant that every stored client is bound to the jar of its entry. -/
theorem session_rotation_keeps_jar (m : List (String × Session))
    (host : String) (s : Session) (p2 now freshJar : Nat)
    (hex : sessLookup m host = some s)
    (hinv : ∀ q ∈ m, q.2.client.jar = q.2.cookieJar) :
    specSessionRotation m host s p2 now freshJar := by
  unfold specSessionRotation getOrCreateSession
  rw [hex]
  refine ⟨rfl, ?_, ?_⟩
  · exact sessLookup_update_self m host _ (by simp [hex])
  · intro q hq
    simp only [sessUpdate, List.mem_map] at hq
    obtain ⟨p, hp, hpq⟩ := hq
    by_cases hk : p.1 = host
    · have hkb : (p.1 == host) = true := beq_iff_eq.mpr hk
      rw [hkb] at hpq
      simp at hpq
      subst hpq
      rfl
    · have hkb : (p.1 == host) = false := beq_eq_false_iff_ne.mpr hk
      rw [hkb] at hpq
      simp at hpq
      subst hpq
      exact hinv p hp

/-- Claim C5, witness: rotation on a one-host map keeps jar 3 while the
profile moves from 7 to 9. -/
theorem session_rotation_keeps_jar_witness :
    specSessionRotation [("example.com", ⟨⟨7, 3⟩, 7, 0, 3⟩)] "example.com"
      ⟨⟨7, 3⟩, 7, 0, 3⟩ 9 100 99 :=
  session_rotation_keeps_jar _ _ _ _ _ _ (by decide) (by decide)

/-- Claim C6: with a successful redirect probe, the inner dispatch
returns the 101 websocket-accept outcome exactly when the four upgrade
conditions of the specification hold, and the 101 response carries
Connection: upgrade, Upgrade: websocket and an empty body. -/
theorem websocket_dispatch_spec (hs : List Header) (u : String) :
    specWebsocketDispatch hs u := by
  unfold specWebsocketDispatch dispatchInner
  refine ⟨?_, rfl⟩
  cases hws : isWebsocketRequest hs with
  | true =>
      simp only [if_pos rfl, reduceIte]
      rw [← isWebsocketRequest_iff_spec, hws]
      simp
  | false =>
      rw [← isWebsocketRequest_iff_spec, hws]
      simp

/-- Claim C6, witness: a request with all four upgrade headers is
dispatched to the websocket branch. -/
theorem websocket_dispatch_spec_witness :
    specWebsocketDispatch
      [⟨"Upgrade", "websocket"⟩, ⟨"Connection", "Upgrade"⟩,
       ⟨"Sec-WebSocket-Key", "k"⟩, ⟨"Sec-WebSocket-Version", "13"⟩]
      "wss://example.test/socket" :=
  websocket_dispatch_spec _ _

/-- Claim C8: the leaf builder appends BasicConstraints (non-CA),
critical KeyUsage, SubjectKeyIdentifier, AuthorityKeyIdentifier
(resolving to key-id only), SubjectAlternativeName with the host and its
wildcard sibling, and ExtendedKeyUsage, in exactly that order, and signs
with the root key using SHA-256. -/
theorem mint_extension_order (rootSubject : X509Name) (rk lk se : Nat)
    (domain : String) : specMintExtensionOrder rootSubject rk lk se domain := by
  refine ⟨rfl, ?_, rfl, rfl⟩
  rfl

/-- Claim C8, witness at concrete arguments. -/
theorem mint_extension_order_witness :
    specMintExtensionOrder ⟨"Boring Proxy", "<BORING-PROXY CA>"⟩ 0 1 2 "example.net" :=
  mint_extension_order _ _ _ _ _

end BoringProxy
